import Mathlib

set_option maxRecDepth 10000

/-!
Verification development for `src/magic.py` of lanzani/package-blueprint,
a single-file CLI for release management (version bump, pre-release checks,
release orchestration, credential login).

The Python source is shallowly embedded below.  Files are modelled by their
parsed content (`Option TomlDoc`, `none` meaning the file is absent), external
process invocations by explicit boolean outcomes supplied as inputs, and each
command returns the printed messages together with an explicit outcome
(success, `typer.Exit(code=1)` after an error print, or an uncaught Python
exception).  All recursion is structural so every definition evaluates by
kernel reduction.
-/

namespace Magic

/-- Model of a parsed TOML value as far as `magic.py` inspects it: the script
only ever reads and writes `pyproject["project"]["version"]`, a string, and
passes every other entry through opaquely, so strings and tables suffice. -/
inductive TomlVal where
  | str (s : String)
  | table (entries : List (String × TomlVal))

/-- A parsed TOML document (what `toml.load` returns): a top-level table,
modelled as an association list in file order (Python dicts preserve
insertion order). -/
abbrev TomlDoc := List (String × TomlVal)

/-- Dictionary lookup `d[k]`, first match (keys of a parsed TOML file are
unique). `none` corresponds to a Python `KeyError`. -/
def lookupKey : TomlDoc → String → Option TomlVal
  | [], _ => none
  | (k, v) :: rest, key => if k = key then some v else lookupKey rest key

/-- Dictionary assignment `d[k] = v`: replaces the value in place, keeping
key order, appending if the key is absent (Python dict semantics). -/
def setKey : TomlDoc → String → TomlVal → TomlDoc
  | [], key, v => [(key, v)]
  | (k, w) :: rest, key, v =>
    if k = key then (key, v) :: rest else (k, w) :: setKey rest key v

/-- Python exceptions that the embedded fragments of `magic.py` can raise.
`fileNotFound` is `FileNotFoundError`, `keyError` is `KeyError`,
`typeError` covers indexing / attribute use on a wrong type,
`valueError` is the `ValueError` from `int()` or tuple unpacking, and
`notWritable` is the `io.UnsupportedOperation: not writable` raised when
writing to a file handle opened with mode "r". -/
inductive PyErr where
  | fileNotFound
  | keyError (k : String)
  | typeError
  | valueError
  | notWritable
deriving DecidableEq, Repr

/-- The expression `pyproject["project"]["version"]` shared by
`get_version` (line 37) and `bump` (line 45). -/
def projectVersion (pyproject : TomlDoc) : Except PyErr TomlVal :=
  match lookupKey pyproject "project" with
  | none => .error (.keyError "project")
  | some (.str _) => .error .typeError
  | some (.table proj) =>
    match lookupKey proj "version" with
    | none => .error (.keyError "version")
    | some v => .ok v

/-- Embeds `get_version` (src/magic.py lines 33-37): open `pyproject.toml`
(raising `FileNotFoundError` when absent), `toml.load` it and return
`pyproject["project"]["version"]`.  The input is the parsed content of
`pyproject.toml`, `none` when the file does not exist. -/
def get_version (file : Option TomlDoc) : Except PyErr TomlVal :=
  match file with
  | none => .error .fileNotFound
  | some pyproject => projectVersion pyproject

/-- Numeric value of an ASCII digit, `none` otherwise. -/
def digitVal (c : Char) : Option Nat :=
  if 48 ≤ c.toNat ∧ c.toNat ≤ 57 then some (c.toNat - 48) else none

/-- Accumulating digit parser for `parseIntPy`. -/
def parseDigitsAux : List Char → Nat → Option Nat
  | [], acc => some acc
  | c :: rest, acc =>
    match digitVal c with
    | some d => parseDigitsAux rest (acc * 10 + d)
    | none => none

/-- Python `int(s)` restricted to the unsigned decimal literals that version
components consist of; `none` models the `ValueError` on anything else.
(Python `int` additionally tolerates a sign and surrounding whitespace,
which never occurs in a dotted version component under test here.) -/
def parseIntPy : List Char → Option Nat
  | [] => none
  | c :: rest => parseDigitsAux (c :: rest) 0

/-- Python `str.split(sep)` for a one-character separator, on explicit
character lists (structural recursion, so it evaluates in the kernel). -/
def splitOnChar (sep : Char) : List Char → List (List Char)
  | [] => [[]]
  | c :: rest =>
    match splitOnChar sep rest with
    | [] => [[]]
    | h :: t => if c = sep then [] :: h :: t else (c :: h) :: t

/-- Embeds line 46, `major, minor, patch = map(int, version.split("."))`:
succeeds only on exactly three dot-separated unsigned integers; `none`
models the `ValueError` raised otherwise (bad component or wrong arity). -/
def parseVersion (s : String) : Option (Nat × Nat × Nat) :=
  match (splitOnChar '.' s.data).map parseIntPy with
  | [some a, some b, some c] => some (a, b, c)
  | _ => none

/-- The `VersionPart` enum of src/magic.py lines 27-30. -/
inductive VersionPart where
  | patch
  | minor
  | major
deriving DecidableEq, Repr

/-- Embeds the increment cascade of src/magic.py lines 48-56: `major` resets
minor and patch, `minor` resets patch, `patch` only increments.  The final
branch (no part matched) is unreachable for the three-valued enum and leaves
the version unchanged, exactly as the Python `if/elif` chain would. -/
def bumpVersion (part : VersionPart) (major minor patch : Nat) : Nat × Nat × Nat :=
  if part = .major then (major + 1, 0, 0)
  else if part = .minor then (major, minor + 1, 0)
  else if part = .patch then (major, minor, patch + 1)
  else (major, minor, patch)

/-- Serialization `f"{major}.{minor}.{patch}"` (lines 58 and 70). -/
def versionString (v : Nat × Nat × Nat) : String :=
  toString v.1 ++ "." ++ toString v.2.1 ++ "." ++ toString v.2.2

/-- The in-memory update `pyproject["project"]["version"] = ...` of line 58.
Only reached after `projectVersion` succeeded, so the fallthrough branch is
unreachable. -/
def setProjectVersion (pyproject : TomlDoc) (s : String) : TomlDoc :=
  match lookupKey pyproject "project" with
  | some (.table proj) => setKey pyproject "project" (.table (setKey proj "version" (.str s)))
  | _ => pyproject

/-- The literal mode string with which line 60 of src/magic.py reopens
`pyproject.toml` before calling `toml.dump` on the handle. -/
def bump_write_mode : String := "r"

/-- Whether a Python `open` mode string yields a writable handle; `toml.dump`
calls `f.write`, which raises `io.UnsupportedOperation: not writable` on a
handle opened with a mode that is not writable. -/
def modeWritable (mode : String) : Bool :=
  mode.data.contains 'w' || mode.data.contains 'a' ||
    mode.data.contains '+' || mode.data.contains 'x'

/-- External process invocations (and the version-badge library render)
performed by the script, used to trace which collaborators a command
actually reaches. -/
inductive Step where
  | preCommitInstall
  | gitRevParse
  | gitStatus
  | runTests
  | coverageHtml
  | coverageXml
  | genbadgeCoverage
  | preCommitFixer
  | versionBadge
  | uvLock
  | uvBuild
  | gitAdd
  | gitCommit
  | gitTag
  | gitPush
deriving DecidableEq, Repr

/-- Result of running the embedded `bump`: the content of `pyproject.toml`
afterwards, the subprocess invocations it performed, the lines it printed,
and either success or the Python exception it raised. -/
structure BumpOutcome where
  pyproject : Option TomlDoc
  trace : List Step
  msgs : List String
  result : Except PyErr Unit

/-- Embeds `bump` (src/magic.py lines 40-70).  Steps: load `pyproject.toml`;
read `project.version`; parse it into three integers; apply the cascade;
assign the new string into the in-memory document (line 58); reopen the file
with mode `bump_write_mode` (the literal `"r"` of line 60) and `toml.dump`
into that handle — which only writes if the mode is writable, and otherwise
raises `io.UnsupportedOperation`; then run the `end-of-file-fixer` hook,
echoing a note instead of failing if the hook exits non-zero (lines 63-68);
finally print the confirmation (line 70).  `fixerOk` is the exit status of
the external fixer process. -/
def bump (part : VersionPart) (fixerOk : Bool) (file : Option TomlDoc) : BumpOutcome :=
  match file with
  | none => ⟨none, [], [], .error .fileNotFound⟩
  | some pyproject =>
    match projectVersion pyproject with
    | .error e => ⟨some pyproject, [], [], .error e⟩
    | .ok (.table _) => ⟨some pyproject, [], [], .error .typeError⟩
    | .ok (.str version) =>
      match parseVersion version with
      | none => ⟨some pyproject, [], [], .error .valueError⟩
      | some v =>
        let newV := bumpVersion part v.1 v.2.1 v.2.2
        let newDoc := setProjectVersion pyproject (versionString newV)
        if modeWritable bump_write_mode then
          ⟨some newDoc, [.preCommitFixer],
            (if fixerOk then [] else ["pre-commit fixed pyproject.toml"]) ++
              ["Version bumped to " ++ versionString newV],
            .ok ()⟩
        else
          ⟨some pyproject, [], [], .error .notWritable⟩

/-- Python `str.strip()` at the character level: basic whitespace.  (Python
strips a slightly larger Unicode class; the branch names and porcelain
status outputs handled here are ASCII.) -/
def isStripChar (c : Char) : Bool :=
  c = ' ' || c = '\t' || c = '\n' || c = '\r' || c = '\u000C' || c = '\u000B'

/-- Drops leading characters satisfying `isStripChar`. -/
def dropLeadingSpace : List Char → List Char
  | [] => []
  | c :: rest => if isStripChar c then dropLeadingSpace rest else c :: rest

/-- Python `s.strip()`. -/
def pyStrip (s : String) : String :=
  String.mk ((dropLeadingSpace (dropLeadingSpace s.data.reverse).reverse))

/-- Result of the `check` command: the confirmation it echoes, or the error
line it echoes to stderr before raising `typer.Exit(code=1)`. -/
inductive CheckResult where
  | ok (msg : String)
  | err (msg : String)
deriving DecidableEq, Repr

/-- Process exit code produced by a `CheckResult`: `typer.Exit(code=1)` on
the error path, 0 on success. -/
def exitCode : CheckResult → Nat
  | .ok _ => 0
  | .err _ => 1

/-- The branch-mismatch error line of src/magic.py lines 140-143. -/
def wrongBranchMsg (current_branch : String) : String :=
  "Error: You must be on the main branch to release. Current branch: " ++ current_branch

/-- The dirty-working-tree error line of src/magic.py lines 151-154. -/
def dirtyMsg : String :=
  "Error: There are uncommitted changes. Please commit all changes before continuing."

/-- The success confirmation of src/magic.py line 157. -/
def checksPassedMsg : String := "All checks passed successfully!"

/-- The `typer.echo(f"Error: \x7be\x7d")` line printed when a
`subprocess.CalledProcessError` is caught.  Python formats the exception as
`Command <argv> returned non-zero exit status <n>.`; the embedded line keeps
the command and a fixed exit status, which is all the claims inspect. -/
def procFailMsg (cmd : String) : String :=
  "Error: Command " ++ cmd ++ " returned non-zero exit status 1."

/-- Result of the embedded `check` command: the subprocess invocations it
performed and its outcome. -/
structure CheckOut where
  trace : List Step
  result : CheckResult

/-- Embeds `check_command` (src/magic.py lines 124-160).  Inputs: whether the
`pre-commit install` subprocess succeeds, and the raw stdout of
`git rev-parse --abbrev-ref HEAD` and `git status --porcelain` (the two git
queries are assumed to exit 0; their failure would take the same
`CalledProcessError` path as a hook-install failure).  The branch test of
line 139 runs before the cleanliness test of line 150, so on a wrong branch
only the branch error is reported and `git status` is never invoked. -/
def check_command (hooksOk : Bool) (branchOut statusOut : String) : CheckOut :=
  if hooksOk then
    let current_branch := pyStrip branchOut
    if current_branch ≠ "main" then
      ⟨[.preCommitInstall, .gitRevParse], .err (wrongBranchMsg current_branch)⟩
    else if pyStrip statusOut ≠ "" then
      ⟨[.preCommitInstall, .gitRevParse, .gitStatus], .err dirtyMsg⟩
    else
      ⟨[.preCommitInstall, .gitRevParse, .gitStatus], .ok checksPassedMsg⟩
  else
    ⟨[.preCommitInstall], .err (procFailMsg "uv run pre-commit install")⟩

/-- Outcome of one embedded command: normal completion, `typer.Exit(code=1)`
raised after echoing an error line, or an uncaught Python exception (which
also terminates the interpreter with exit status 1, but printing a
traceback instead of an `Error:` line). -/
inductive Outcome where
  | ok
  | exitFailure
  | uncaught (e : PyErr)
deriving DecidableEq, Repr

/-- Trace, printed lines and outcome of an embedded helper command. -/
structure CmdOut where
  trace : List Step
  msgs : List String
  result : Outcome

/-- Embeds `run_tests` (src/magic.py lines 73-79): invoke
`uv run pytest --cov=src`; on non-zero exit echo the error and raise
`typer.Exit(code=1)`. -/
def run_tests (testsOk : Bool) : CmdOut :=
  if testsOk then ⟨[.runTests], [], .ok⟩
  else ⟨[.runTests], [procFailMsg "uv run pytest --cov=src"], .exitFailure⟩

/-- Embeds `generate_coverage_badge` (src/magic.py lines 82-99): run
`coverage html`, `coverage xml`, then `genbadge coverage`; the first failure
echoes the error and raises `typer.Exit(code=1)`. -/
def generate_coverage_badge (htmlOk xmlOk badgeOk : Bool) : CmdOut :=
  if htmlOk then
    if xmlOk then
      if badgeOk then ⟨[.coverageHtml, .coverageXml, .genbadgeCoverage], [], .ok⟩
      else ⟨[.coverageHtml, .coverageXml, .genbadgeCoverage],
        [procFailMsg "genbadge coverage -i coverage.xml -o reports/coverage-badge.svg"],
        .exitFailure⟩
    else ⟨[.coverageHtml, .coverageXml], [procFailMsg "uv run coverage xml"], .exitFailure⟩
  else ⟨[.coverageHtml], [procFailMsg "uv run coverage html"], .exitFailure⟩

/-- Embeds `generate_version_badge` (src/magic.py lines 102-105): read the
current version via `get_version` (whose exceptions propagate uncaught) and
render the SVG with the badge library (an in-process call, no subprocess). -/
def generate_version_badge (file : Option TomlDoc) : CmdOut :=
  match get_version file with
  | .error e => ⟨[], [], .uncaught e⟩
  | .ok _ => ⟨[.versionBadge], [], .ok⟩

/-- Display of a value interpolated into an f-string; the version value is a
string in every reachable use. -/
def pyDisplay : TomlVal → String
  | .str s => s
  | .table _ => "\x7b...\x7d"

/-- All external-world inputs of one `release` invocation: the parsed content
of `pyproject.toml` and the exit status of every external process the
orchestration may invoke. -/
structure World where
  pyproject : Option TomlDoc
  hooksOk : Bool
  branchOut : String
  statusOut : String
  testsOk : Bool
  covHtmlOk : Bool
  covXmlOk : Bool
  covBadgeOk : Bool
  fixerOk : Bool
  lockOk : Bool
  buildOk : Bool
  addOk : Bool
  commitOk : Bool
  tagOk : Bool
  pushOk : Bool

/-- Final state of an embedded `release` invocation. -/
structure ReleaseOut where
  pyproject : Option TomlDoc
  trace : List Step
  msgs : List String
  result : Outcome

/-- The build-and-git tail of `release_command` (src/magic.py lines 200-214):
`uv lock`, `uv build`, `git add .`, `git commit`, `git tag`, `git push`; the
first `CalledProcessError` is caught at line 216, echoed and converted to
`typer.Exit(code=1)`. -/
def buildAndGit (w : World) : CmdOut :=
  if w.lockOk then
    if w.buildOk then
      if w.addOk then
        if w.commitOk then
          if w.tagOk then
            if w.pushOk then
              ⟨[.uvLock, .uvBuild, .gitAdd, .gitCommit, .gitTag, .gitPush], [], .ok⟩
            else ⟨[.uvLock, .uvBuild, .gitAdd, .gitCommit, .gitTag, .gitPush],
              [procFailMsg "git push origin main --tags"], .exitFailure⟩
          else ⟨[.uvLock, .uvBuild, .gitAdd, .gitCommit, .gitTag],
            [procFailMsg "git tag"], .exitFailure⟩
        else ⟨[.uvLock, .uvBuild, .gitAdd, .gitCommit],
          [procFailMsg "git commit"], .exitFailure⟩
      else ⟨[.uvLock, .uvBuild, .gitAdd], [procFailMsg "git add ."], .exitFailure⟩
    else ⟨[.uvLock, .uvBuild], [procFailMsg "uv build"], .exitFailure⟩
  else ⟨[.uvLock], [procFailMsg "uv lock"], .exitFailure⟩

/-- Embeds `release_command` (src/magic.py lines 163-220).  The sequence is:
`check_command`; unless `skip_tests`, echo `Running tests...` then
`run_tests` and `generate_coverage_badge` (on skip, echo the skip notice
instead); `bump part` (whose uncaught exceptions abort the whole command —
the call sits outside the `try` of line 189, and `typer` catches nothing
but `CalledProcessError` there anyway); `generate_version_badge`; then
inside the `try`: read the old and the new version (both read after the
bump, lines 191 and 194), echo the `Releasing version` and
`Building version` lines, and run the build-and-git tail; on success print
the final confirmation of line 220. -/
def release_command (part : VersionPart) (skip_tests : Bool) (w : World) : ReleaseOut :=
  let c := check_command w.hooksOk w.branchOut w.statusOut
  match c.result with
  | .err m => ⟨w.pyproject, c.trace, [m], .exitFailure⟩
  | .ok okMsg =>
    let tPhase : CmdOut :=
      if skip_tests then ⟨[], ["Tests skipped as requested."], .ok⟩
      else
        let r := run_tests w.testsOk
        match r.result with
        | .ok =>
          let g := generate_coverage_badge w.covHtmlOk w.covXmlOk w.covBadgeOk
          ⟨r.trace ++ g.trace, "Running tests..." :: (r.msgs ++ g.msgs), g.result⟩
        | x => ⟨r.trace, "Running tests..." :: r.msgs, x⟩
    match tPhase.result with
    | .exitFailure =>
      ⟨w.pyproject, c.trace ++ tPhase.trace, okMsg :: tPhase.msgs, .exitFailure⟩
    | .uncaught e =>
      ⟨w.pyproject, c.trace ++ tPhase.trace, okMsg :: tPhase.msgs, .uncaught e⟩
    | .ok =>
      let b := bump part w.fixerOk w.pyproject
      match b.result with
      | .error e =>
        ⟨b.pyproject, c.trace ++ tPhase.trace ++ b.trace,
          okMsg :: (tPhase.msgs ++ b.msgs), .uncaught e⟩
      | .ok _ =>
        let vb := generate_version_badge b.pyproject
        match vb.result with
        | .uncaught e =>
          ⟨b.pyproject, c.trace ++ tPhase.trace ++ b.trace ++ vb.trace,
            okMsg :: (tPhase.msgs ++ b.msgs ++ vb.msgs), .uncaught e⟩
        | _ =>
          match get_version b.pyproject, get_version b.pyproject with
          | .ok oldVal, .ok newVal =>
            let old_version := pyDisplay oldVal
            let new_version := pyDisplay newVal
            let pre := ["Releasing version " ++ old_version ++ " → " ++ new_version,
              "Building version: " ++ new_version]
            let bg := buildAndGit w
            let finalMsgs :=
              match bg.result with
              | .ok => ["[green]Successfully released version[/green] [bold green]" ++
                  new_version ++ "[/bold green]"]
              | _ => []
            ⟨b.pyproject,
              c.trace ++ tPhase.trace ++ b.trace ++ vb.trace ++ bg.trace,
              okMsg :: (tPhase.msgs ++ b.msgs ++ vb.msgs ++ pre ++ bg.msgs ++ finalMsgs),
              bg.result⟩
          | .error e, _ =>
            ⟨b.pyproject, c.trace ++ tPhase.trace ++ b.trace ++ vb.trace,
              okMsg :: (tPhase.msgs ++ b.msgs ++ vb.msgs), .uncaught e⟩
          | _, .error e =>
            ⟨b.pyproject, c.trace ++ tPhase.trace ++ b.trace ++ vb.trace,
              okMsg :: (tPhase.msgs ++ b.msgs ++ vb.msgs), .uncaught e⟩

/-- Python `str.upper()` on one character, at the code-point level for the
basic latin range (the only case mapping `magic.py` can feed into an
environment-variable name: everything else is replaced by `_` right after). -/
def upperChar (c : Char) : Char :=
  if 97 ≤ c.toNat ∧ c.toNat ≤ 122 then Char.ofNat (c.toNat - 32) else c

/-- Python `str.lower()` on one character, basic latin range. -/
def lowerChar (c : Char) : Char :=
  if 65 ≤ c.toNat ∧ c.toNat ≤ 90 then Char.ofNat (c.toNat + 32) else c

/-- Membership in the regex character class `[a-zA-Z0-9]` of line 254. -/
def isAsciiAlnum (c : Char) : Bool :=
  decide ((65 ≤ c.toNat ∧ c.toNat ≤ 90) ∨ (97 ≤ c.toNat ∧ c.toNat ≤ 122) ∨
    (48 ≤ c.toNat ∧ c.toNat ≤ 57))

/-- One step of `re.sub(r"[^a-zA-Z0-9]", "_", ...)`: the class is a single
character, so the substitution is a per-character map. -/
def subChar (c : Char) : Char :=
  if isAsciiAlnum c then c else '_'

/-- Embeds line 254 of src/magic.py:
`re.sub(r"[^a-zA-Z0-9]", "_", package_index.upper())` — uppercase first,
then replace every character outside `[a-zA-Z0-9]` with `_`. -/
def normalized_index (package_index : String) : String :=
  String.mk ((package_index.data.map upperChar).map subChar)

/-- Python `str.lower()` (basic latin). -/
def pyLower (s : String) : String :=
  String.mk (s.data.map lowerChar)

/-- The environment-variable name of line 257. -/
def username_var (normalized : String) : String :=
  "UV_INDEX_" ++ normalized ++ "_USERNAME"

/-- The environment-variable name of line 258. -/
def password_var (normalized : String) : String :=
  "UV_INDEX_" ++ normalized ++ "_PASSWORD"

/-- Embeds line 261: the second, fixed pair of publish variables is also
written when the `--default` flag was given or the entered index name is
`pypi` or `default` case-insensitively. -/
def set_default_vars (use_default : Bool) (package_index : String) : Bool :=
  use_default || pyLower package_index = "pypi" || pyLower package_index = "default"

/-- The text appended to the selected shell startup file on the non-Windows
path of `login_command` (src/magic.py lines 312-321): a comment header, the
two per-index export lines, and, when `set_default_vars` holds, a second
header and the two fixed `UV_PUBLISH` export lines. -/
def loginAppendText (package_index username password : String) (sdv : Bool) : String :=
  "\n# UV publishing credentials for " ++ package_index ++ "\n" ++
    "export " ++ username_var (normalized_index package_index) ++ "=\x27" ++ username ++ "\x27\n" ++
    "export " ++ password_var (normalized_index package_index) ++ "=\x27" ++ password ++ "\x27\n" ++
    (if sdv then
      "\n# Default UV publishing credentials\n" ++
        "export UV_PUBLISH_USERNAME=\x27" ++ username ++ "\x27\n" ++
        "export UV_PUBLISH_PASSWORD=\x27" ++ password ++ "\x27\n"
    else "")

/-- Embeds the data flow of `login_command` (src/magic.py lines 246-321) down
to the startup-file append on the non-Windows branch: the index name is the
fixed string `"default"` under `--default` and the prompted name otherwise,
and the appended text is `loginAppendText` of that name, the prompted
credentials, and the `set_default_vars` decision of line 261. -/
def login_append (use_default : Bool) (promptedIndex username password : String) : String :=
  let package_index := if use_default then "default" else promptedIndex
  loginAppendText package_index username password (set_default_vars use_default package_index)

/-- Lines of a written text, split at newlines (Python-side inspection of
what `login` appended). -/
def textLines (t : String) : List String :=
  (splitOnChar '\n' t.data).map String.mk

/-- Prefix test on character lists (structural, kernel-evaluable). -/
def listStartsWith : List Char → List Char → Bool
  | _, [] => true
  | [], _ :: _ => false
  | c :: cs, p :: ps => c = p && listStartsWith cs ps

/-- Whether a printed line is one of the `Error: <detail>` lines that the
script emits on its handled fatal paths. -/
def isErrorLine (s : String) : Bool :=
  listStartsWith s.data ("Error:".data)

/-- Models the final line of the report CPython prints when an exception
escapes uncaught (no handler in `magic.py` catches these): the exception
class name followed by its detail.  `get_version` installs no handler, so
its `FileNotFoundError` and `KeyError` reach the interpreter. -/
def pythonExcLine : PyErr → String
  | .fileNotFound => "FileNotFoundError: [Errno 2] No such file or directory: \x27pyproject.toml\x27"
  | .keyError k => "KeyError: \x27" ++ k ++ "\x27"
  | .typeError => "TypeError: string indices must be integers"
  | .valueError => "ValueError: invalid literal for int() with base 10"
  | .notWritable => "io.UnsupportedOperation: not writable"

/-- Models the interpreter exit status after an uncaught exception: CPython
terminates with status 1. -/
def uncaughtExitStatus (_ : PyErr) : Nat := 1

/-- A minimal well-formed `pyproject.toml`: `project.version = "1.2.3"`. -/
def doc123 : TomlDoc := [("project", .table [("version", .str "1.2.3")])]

/-- A `pyproject.toml` with version `1.2.3` and several unrelated keys, for
the frame property of the bump rewrite. -/
def docMulti : TomlDoc :=
  [("project", .table
      [("name", .str "package-blueprint"),
       ("version", .str "1.2.3"),
       ("description", .str "A blueprint for python packages")]),
   ("tool", .table [("uv", .table [])]),
   ("build-system", .str "hatchling")]

/-- A fully cooperative external world: well-formed configuration, clean
working tree on `main`, and every external process succeeding.  Any release
failure in this world comes from the script itself. -/
def wRelease : World where
  pyproject := some doc123
  hooksOk := true
  branchOut := "main\n"
  statusOut := ""
  testsOk := true
  covHtmlOk := true
  covXmlOk := true
  covBadgeOk := true
  fixerOk := true
  lockOk := true
  buildOk := true
  addOk := true
  commitOk := true
  tagOk := true
  pushOk := true

/-! ### Supporting lemmas -/

theorem toNat_ofNat_lt (n : Nat) (h : n < 55296) : (Char.ofNat n).toNat = n := by
  have hv : n.isValidChar := Or.inl h
  rw [Char.ofNat, dif_pos hv]
  rfl

theorem upperChar_not_lower (c : Char) :
    ¬ (97 ≤ (upperChar c).toNat ∧ (upperChar c).toNat ≤ 122) := by
  unfold upperChar
  split
  · next h =>
    rw [toNat_ofNat_lt (c.toNat - 32) (by omega)]
    omega
  · next h => exact h

theorem upperChar_eq_of_not_lower {c : Char}
    (h : ¬ (97 ≤ c.toNat ∧ c.toNat ≤ 122)) : upperChar c = c := by
  unfold upperChar
  rw [if_neg h]

theorem normChar_idem (c : Char) :
    subChar (upperChar (subChar (upperChar c))) = subChar (upperChar c) := by
  have hnl := upperChar_not_lower c
  by_cases ha : isAsciiAlnum (upperChar c) = true
  · have h1 : subChar (upperChar c) = upperChar c := by simp [subChar, ha]
    rw [h1, upperChar_eq_of_not_lower hnl, h1]
  · have h1 : subChar (upperChar c) = '_' := by simp [subChar, ha]
    rw [h1]
    decide

theorem norm_list_idem (l : List Char) :
    (((l.map upperChar).map subChar).map upperChar).map subChar
      = (l.map upperChar).map subChar := by
  induction l with
  | nil => rfl
  | cons c cs ih =>
    simp only [List.map_cons]
    rw [normChar_idem c, ih]

/-- Frame property of Python dict assignment: setting one key leaves every
other key unchanged. -/
theorem lookupKey_setKey_ne (d : TomlDoc) (key k : String) (v : TomlVal)
    (h : k ≠ key) : lookupKey (setKey d key v) k = lookupKey d k := by
  induction d with
  | nil => simp [setKey, lookupKey, h, Ne.symm h]
  | cons e rest ih =>
    obtain ⟨ek, ev⟩ := e
    by_cases he : ek = key
    · subst he
      simp [setKey, lookupKey, h, Ne.symm h]
    · simp only [setKey, if_neg he, lookupKey]
      by_cases hk : ek = k
      · simp [hk]
      · simp [hk, ih]

/-- Frame property of the in-memory version assignment of line 58: every
top-level key other than `project` is untouched, and inside `project` every
key other than `version` is untouched. -/
theorem setProjectVersion_frame (doc : TomlDoc) (s : String) :
    (∀ k : String, k ≠ "project" →
        lookupKey (setProjectVersion doc s) k = lookupKey doc k)
    ∧ (∀ (proj : TomlDoc) (k : String),
        lookupKey doc "project" = some (.table proj) → k ≠ "version" →
        lookupKey (setProjectVersion doc s) "project"
          = some (.table (setKey proj "version" (.str s)))
        ∧ lookupKey (setKey proj "version" (.str s)) k = lookupKey proj k) := by
  constructor
  · intro k hk
    unfold setProjectVersion
    cases hp : lookupKey doc "project" with
    | none => rfl
    | some v =>
      cases v with
      | str t => rfl
      | table proj => exact lookupKey_setKey_ne doc "project" k _ hk
  · intro proj k hp hk
    unfold setProjectVersion
    rw [hp]
    constructor
    · have : lookupKey (setKey doc "project" (.table (setKey proj "version" (.str s)))) "project"
          = some (.table (setKey proj "version" (.str s))) := by
        clear hp
        induction doc with
        | nil => simp [setKey, lookupKey]
        | cons e rest ih =>
          obtain ⟨ek, ev⟩ := e
          by_cases he : ek = "project"
          · subst he
            simp [setKey, lookupKey]
          · simp [setKey, he, lookupKey, ih]
      exact this
    · exact lookupKey_setKey_ne proj "version" k _ hk

/-! ### Claim theorems -/

/-- Claim C1 (status code_bug): the spec scenario says `version bump minor`
on a config holding `1.2.3` rewrites it to `1.3.0` and prints
`Version bumped to 1.3.0`.  The code computes `1.3.0` (first conjunct), but
line 60 reopens `pyproject.toml` with mode `"r"` and `toml.dump` then raises
`io.UnsupportedOperation: not writable`, so the file is left unchanged and
nothing is printed (remaining conjuncts). -/
theorem C1_bump_minor_never_writes :
    versionString (bumpVersion .minor 1 2 3) = "1.3.0"
    ∧ (bump .minor true (some doc123)).result = .error .notWritable
    ∧ (bump .minor true (some doc123)).pyproject = some doc123
    ∧ (bump .minor true (some doc123)).msgs = [] :=
  ⟨rfl, rfl, rfl, rfl⟩

/-- Claim C2 (status code_bug): the spec says bump rewrites the configuration
file mutating only the version field.  The in-memory update of line 58 does
preserve every non-version key (first two conjuncts, on a document with
several unrelated keys), but the rewrite itself raises
`io.UnsupportedOperation` because the file is reopened read-only, so the
file on disk is never rewritten at all (last two conjuncts). -/
theorem C2_bump_rewrite_fails_frame_intact :
    lookupKey (setProjectVersion docMulti (versionString (bumpVersion .patch 1 2 3))) "tool"
        = lookupKey docMulti "tool"
    ∧ lookupKey (setProjectVersion docMulti (versionString (bumpVersion .patch 1 2 3))) "build-system"
        = lookupKey docMulti "build-system"
    ∧ (bump .patch true (some docMulti)).result = .error .notWritable
    ∧ (bump .patch true (some docMulti)).pyproject = some docMulti :=
  ⟨rfl, rfl, rfl, rfl⟩

/-- Claim C3 (status confirmed): the increment cascade of lines 46-58 maps
`a.b.c` to `a.b.(c+1)` under `patch`, to `a.(b+1).0` under `minor`, and to
`(a+1).0.0` under `major`, for every version of three non-negative
integers. -/
theorem C3_bump_rules (a b c : Nat) :
    bumpVersion .patch a b c = (a, b, c + 1)
    ∧ bumpVersion .minor a b c = (a, b + 1, 0)
    ∧ bumpVersion .major a b c = (a + 1, 0, 0) :=
  ⟨rfl, rfl, rfl⟩

/-- Claim C4 (status confirmed): with the hook install succeeding, `check`
succeeds on a clean `main` working tree; on any other branch it reports the
branch-mismatch error and exits 1 regardless of the status output (so the
branch check precedes the cleanliness check); and on `main` with any
uncommitted path it reports the dirty-working-tree error and exits 1. -/
theorem C4_check_branch_then_cleanliness :
    ((check_command true "main" "").result = .ok checksPassedMsg
      ∧ exitCode (check_command true "main" "").result = 0)
    ∧ (∀ branchOut statusOut : String, pyStrip branchOut ≠ "main" →
        (check_command true branchOut statusOut).result
            = .err (wrongBranchMsg (pyStrip branchOut))
        ∧ exitCode (check_command true branchOut statusOut).result = 1)
    ∧ (∀ statusOut : String, pyStrip statusOut ≠ "" →
        (check_command true "main" statusOut).result = .err dirtyMsg
        ∧ exitCode (check_command true "main" statusOut).result = 1) := by
  refine ⟨⟨rfl, rfl⟩, ?_, ?_⟩
  · intro b s hb
    constructor
    · simp [check_command, hb]
    · simp [check_command, hb, exitCode]
  · intro s hs
    have h : pyStrip "main" = "main" := rfl
    constructor
    · simp [check_command, h, hs]
    · simp [check_command, h, hs, exitCode]

/-- Witness for C4: on branch `feature-x` with a dirty working tree, only the
branch-mismatch error is reported; on `main` with the same dirty status, the
cleanliness error is reported. -/
theorem C4_check_witness :
    ((check_command true "feature-x\n" " M src/x.py").result
        = .err (wrongBranchMsg "feature-x")
      ∧ exitCode (check_command true "feature-x\n" " M src/x.py").result = 1)
    ∧ ((check_command true "main\n" " M src/x.py").result = .err dirtyMsg
      ∧ exitCode (check_command true "main\n" " M src/x.py").result = 1) :=
  ⟨C4_check_branch_then_cleanliness.2.1 "feature-x\n" " M src/x.py" (by decide),
   C4_check_branch_then_cleanliness.2.2 " M src/x.py" (by decide)⟩

/-- Claim C5 (status code_bug): releasing with `--skip-tests` in a fully
cooperative world indeed never invokes the test runner or any coverage-badge
step (the trace holds only the check-phase subprocesses), but — contrary to
the claim — the version badge, build and git steps are not performed either:
`bump` raises `io.UnsupportedOperation` at its read-only file write, aborting
the whole release right after the skip notice. -/
theorem C5_release_skip_tests_aborts_in_bump :
    (release_command .minor true wRelease).trace
        = [.preCommitInstall, .gitRevParse, .gitStatus]
    ∧ Step.runTests ∉ (release_command .minor true wRelease).trace
    ∧ Step.genbadgeCoverage ∉ (release_command .minor true wRelease).trace
    ∧ Step.versionBadge ∉ (release_command .minor true wRelease).trace
    ∧ Step.uvBuild ∉ (release_command .minor true wRelease).trace
    ∧ Step.gitPush ∉ (release_command .minor true wRelease).trace
    ∧ (release_command .minor true wRelease).msgs
        = [checksPassedMsg, "Tests skipped as requested."]
    ∧ (release_command .minor true wRelease).result = .uncaught .notWritable := by
  refine ⟨rfl, ?_, ?_, ?_, ?_, ?_, rfl, rfl⟩ <;> decide

/-- Claim C6 (status code_bug): the fixer-failure tolerance of lines 63-68 is
unreachable: with the fixer set up to fail, `bump` raises
`io.UnsupportedOperation` at the preceding file write, so the fixer
subprocess is never invoked (empty trace), nothing was committed to disk,
and no success confirmation is printed — while the claim says the bump
completes with the change on disk. -/
theorem C6_bump_fixer_never_reached :
    (bump .patch false (some doc123)).result = .error .notWritable
    ∧ (bump .patch false (some doc123)).trace = []
    ∧ (bump .patch false (some doc123)).msgs = []
    ∧ (bump .patch false (some doc123)).pyproject = some doc123 :=
  ⟨rfl, rfl, rfl, rfl⟩

/-- Claim C7 (status confirmed): the index-name normalization of line 254 is
idempotent on every string, and maps `"my company!"` to `"MY_COMPANY_"`. -/
theorem C7_normalized_index_idempotent :
    (∀ s : String, normalized_index (normalized_index s) = normalized_index s)
    ∧ normalized_index "my company!" = "MY_COMPANY_" :=
  ⟨fun s => congrArg String.mk (norm_list_idem s.data), rfl⟩

/-- Claim C8 (status confirmed): `login --default` with username `alice` and
password `secret` appends, on the non-Windows path, the two per-index export
lines for the `DEFAULT` index and the two fixed `UV_PUBLISH` export
lines. -/
theorem C8_login_default_appends_exports :
    "export UV_INDEX_DEFAULT_USERNAME=\x27alice\x27"
        ∈ textLines (login_append true "" "alice" "secret")
    ∧ "export UV_INDEX_DEFAULT_PASSWORD=\x27secret\x27"
        ∈ textLines (login_append true "" "alice" "secret")
    ∧ "export UV_PUBLISH_USERNAME=\x27alice\x27"
        ∈ textLines (login_append true "" "alice" "secret")
    ∧ "export UV_PUBLISH_PASSWORD=\x27secret\x27"
        ∈ textLines (login_append true "" "alice" "secret") := by
  refine ⟨?_, ?_, ?_, ?_⟩ <;> decide

/-- Claim C9, counterexample: with `pyproject.toml` absent, `get_version`
raises `FileNotFoundError`, and since no handler in the script catches it,
the line the interpreter prints is the exception report, which is not an
`Error: <detail>` line as the claim asserts for every fatal path. -/
theorem C9_missing_file_line_not_error_prefixed :
    get_version none = .error .fileNotFound
    ∧ isErrorLine (pythonExcLine .fileNotFound) = false := by
  exact ⟨rfl, rfl⟩

/-- Claim C9 (status corrected): `get_version` returns the value at
`project.version`; an absent file fails with `FileNotFoundError`
(ConfigNotFound) and an absent `project` or `version` key with `KeyError`
(ConfigMalformed); the interpreter exits with status 1 on these uncaught
failures, but prints the exception report line rather than an
`Error: <detail>` line. -/
theorem C9_get_version_behaviour :
    (get_version none = .error .fileNotFound)
    ∧ (∀ doc : TomlDoc, lookupKey doc "project" = none →
        get_version (some doc) = .error (.keyError "project"))
    ∧ (∀ (doc proj : TomlDoc), lookupKey doc "project" = some (.table proj) →
        lookupKey proj "version" = none →
        get_version (some doc) = .error (.keyError "version"))
    ∧ (∀ (doc proj : TomlDoc) (v : TomlVal),
        lookupKey doc "project" = some (.table proj) →
        lookupKey proj "version" = some v →
        get_version (some doc) = .ok v)
    ∧ (uncaughtExitStatus .fileNotFound = 1
        ∧ uncaughtExitStatus (.keyError "project") = 1
        ∧ uncaughtExitStatus (.keyError "version") = 1)
    ∧ (isErrorLine (pythonExcLine .fileNotFound) = false
        ∧ isErrorLine (pythonExcLine (.keyError "project")) = false
        ∧ isErrorLine (pythonExcLine (.keyError "version")) = false) := by
  refine ⟨rfl, ?_, ?_, ?_, ⟨rfl, rfl, rfl⟩, by decide⟩
  · intro doc h
    simp [get_version, projectVersion, h]
  · intro doc proj h hv
    simp [get_version, projectVersion, h, hv]
  · intro doc proj v h hv
    simp [get_version, projectVersion, h, hv]

/-- Witness for C9: the three fallible paths of `get_version` evaluated at
concrete documents. -/
theorem C9_get_version_witness :
    get_version (some ([] : TomlDoc)) = .error (.keyError "project")
    ∧ get_version (some [("project", .table [])]) = .error (.keyError "version")
    ∧ get_version (some doc123) = .ok (.str "1.2.3") :=
  ⟨C9_get_version_behaviour.2.1 [] rfl,
   C9_get_version_behaviour.2.2.1 [("project", .table [])] [] rfl rfl,
   C9_get_version_behaviour.2.2.2.1 doc123 [("version", .str "1.2.3")] (.str "1.2.3") rfl rfl⟩

/-- Claim C10 (status code_bug): the claim reads lines 189-196 — both the
"old" and the "new" version of the `Releasing version` report are fetched
after the bump, so every successful release would report two equal strings.
In fact the report is never printed at all: in a fully cooperative world the
release dies inside `bump` with `io.UnsupportedOperation` before reaching
line 196, so no message starting with `Releasing` ever appears and the
release never succeeds. -/
theorem C10_release_report_unreachable :
    (release_command .patch false wRelease).msgs
        = [checksPassedMsg, "Running tests..."]
    ∧ ((release_command .patch false wRelease).msgs.all
        fun m => !(listStartsWith m.data ("Releasing".data))) = true
    ∧ (release_command .patch false wRelease).result = .uncaught .notWritable := by
  refine ⟨rfl, ?_, rfl⟩
  decide

end Magic
